import Mathlib

/-!
Shallow embedding of the ironfish multisig signing-ceremony orchestrator and
the block-header serde, together with theorems settling the specification
claims about them.

Conventions of the embedding:
- JavaScript `Buffer` values are lists of byte values (`Bytes`).
- hexadecimal strings are lists of hexadecimal digit values 0..15 (`HexStr`);
  decimal strings (from `BigInt.toString` / `Number`) are lists of decimal
  digit values (`DecStr`).
- opaque ceremony strings (identities, commitments, signature shares, signing
  packages) are Lean `String`s.
- asynchronous waits (operator prompts, relay polling) are modelled by
  explicit input lists / message schedules; an operation that would block
  forever returns `none`.
- external cryptographic functions (blake3, transaction hash, public-key
  randomness, the signature-share primitive) are parameters of the
  definitions that call them.
-/

/-- A JavaScript `Buffer`, modelled as its list of byte values. -/
abbrev Bytes := List Nat

/-- A hexadecimal string, modelled as its list of hex-digit values (0..15). -/
abbrev HexStr := List Nat

/-- A decimal string, modelled as its list of decimal-digit values (0..9). -/
abbrev DecStr := List Nat

/-- `buffer.toString('hex')`: each byte becomes its two hex digits, high
nibble first. -/
def hexEncode : Bytes → HexStr
  | [] => []
  | x :: rest => x / 16 :: x % 16 :: hexEncode rest

/-- `Buffer.from(s, 'hex')`: consecutive digit pairs become bytes; a
trailing odd digit is dropped, as `Buffer.from` does. -/
def hexDecodePairs : HexStr → Bytes
  | h :: l :: rest => (16 * h + l) :: hexDecodePairs rest
  | _ => []

theorem hexDecodePairs_hexEncode (b : Bytes) : hexDecodePairs (hexEncode b) = b := by
  induction b with
  | nil => rfl
  | cons x xs ih =>
    rw [hexEncode, hexDecodePairs, ih]
    congr 1
    omega

/-- `n.toString()` on a non-negative `BigInt` / `Number`: the decimal digits,
most significant first; `0` prints as the one-digit string `0`. -/
def decRepr (n : Nat) : DecStr :=
  if n = 0 then [0] else (Nat.digits 10 n).reverse

/-- `BigInt(s)` / `Number(s)` on a decimal string. -/
def decParse (s : DecStr) : Nat :=
  Nat.ofDigits 10 s.reverse

theorem decParse_decRepr (n : Nat) : decParse (decRepr n) = n := by
  by_cases h : n = 0
  · simp [decRepr, decParse, h, Nat.ofDigits]
  · simp [decRepr, decParse, h, Nat.ofDigits_digits]

theorem decRepr_ne_nil (n : Nat) : decRepr n ≠ [] := by
  by_cases h : n = 0
  · simp [decRepr, h]
  · simp [decRepr, h, Nat.digits_ne_nil_iff_ne_zero]

/-- JavaScript truthiness of an optional string: `undefined` and the empty
string are falsy, every other string is truthy. -/
def jsTruthyStr : Option DecStr → Bool
  | some s => !s.isEmpty
  | none => false

/-- Big-endian fixed-width byte encoding (`writeBigU64BE`, `writeBigU256BE`). -/
def beBytes (width n : Nat) : Bytes :=
  (List.range width).map fun i => n / 256 ^ (width - 1 - i) % 256

/-- Little-endian fixed-width byte encoding (`bufio` `writeU32`, `writeU64`). -/
def leBytes (width n : Nat) : Bytes :=
  (List.range width).map fun i => n / 256 ^ i % 256

/-- Modelled from the spec boundary: the `Target` class is not among the
sources; per its use in the serde it stores a big-int target value, its
string constructor parses a decimal string, and `asBigInt`/`targetValue`
return the stored value. -/
structure Target where
  targetValue : Nat
deriving DecidableEq, Repr

def Target.asBigInt (t : Target) : Nat := t.targetValue

def Target.ofString (s : DecStr) : Target := ⟨decParse s⟩

/-- The block header, fields as in the source class. A `Date` is modelled as
its epoch-milliseconds value; `noteSize: number | null` is an `Option`. -/
structure BlockHeader where
  sequence : Nat
  previousBlockHash : Bytes
  noteCommitment : Bytes
  transactionCommitment : Bytes
  target : Target
  randomness : Nat
  timestamp : Nat
  graffiti : Bytes
  noteSize : Option Nat
  work : Nat
  hash : Bytes
deriving DecidableEq, Repr

/-- `BlockHeader.serialize`: `writeBigU64BE(randomness)`, `writeU32(sequence)`,
the three 32-byte hashes, `writeBigU256BE(target.asBigInt())`,
`writeU64(timestamp.getTime())`, `writeBytes(graffiti)`. -/
def BlockHeader.serializeBytes (h : BlockHeader) : Bytes :=
  beBytes 8 h.randomness ++ leBytes 4 h.sequence ++ h.previousBlockHash ++
    h.noteCommitment ++ h.transactionCommitment ++ beBytes 32 h.target.asBigInt ++
    leBytes 8 h.timestamp ++ h.graffiti

/-- The `BlockHeader` constructor: `timestamp || new Date()` (the `now`
parameter stands for the current time used when none is given),
`noteSize ?? null`, and `hash || this.computeHash()` where `computeHash`
hashes the serialized header with blake3 (passed in as `blake3`). -/
def BlockHeader.make (blake3 : Bytes → Bytes) (sequence : Nat)
    (previousBlockHash noteCommitment transactionCommitment : Bytes)
    (target : Target) (randomness : Nat) (timestamp : Option Nat) (now : Nat)
    (graffiti : Bytes) (noteSize : Option Nat) (work : Nat)
    (hash : Option Bytes) : BlockHeader :=
  let withoutHash : BlockHeader :=
    { sequence := sequence
      previousBlockHash := previousBlockHash
      noteCommitment := noteCommitment
      transactionCommitment := transactionCommitment
      target := target
      randomness := randomness
      timestamp := timestamp.getD now
      graffiti := graffiti
      noteSize := noteSize
      work := work
      hash := [] }
  { withoutHash with hash := hash.getD (blake3 withoutHash.serializeBytes) }

/-- `BlockHeader.equals`: equal `noteSize`, equal `work`, and byte-identical
`serialize()` output. -/
def BlockHeader.equals (a b : BlockHeader) : Bool :=
  a.noteSize == b.noteSize && a.work == b.work &&
    a.serializeBytes == b.serializeBytes

/-- The serialized header shape (`SerializedBlockHeader`): hashes as hex
strings, `target`/`randomness`/`work` as decimal strings, `work` optional. -/
structure SerializedBlockHeader where
  sequence : Nat
  previousBlockHash : HexStr
  noteCommitment : Bytes
  transactionCommitment : Bytes
  target : DecStr
  randomness : DecStr
  timestamp : Nat
  noteSize : Option Nat
  work : Option DecStr
  graffiti : HexStr
deriving DecidableEq, Repr

namespace BlockHeaderSerde

/-- `BlockHeaderSerde.serialize`. Modelled from the spec boundary:
`BlockHashSerdeInstance` and `GraffitiSerdeInstance` are not among the
sources; per their serialized string types they are hexadecimal codecs. -/
def serialize (header : BlockHeader) : SerializedBlockHeader :=
  { sequence := header.sequence
    previousBlockHash := hexEncode header.previousBlockHash
    noteCommitment := header.noteCommitment
    transactionCommitment := header.transactionCommitment
    target := decRepr header.target.targetValue
    randomness := decRepr header.randomness
    timestamp := header.timestamp
    graffiti := hexEncode header.graffiti
    noteSize := header.noteSize
    work := some (decRepr header.work) }

/-- `BlockHeaderSerde.deserialize`: rebuilds the header through the
constructor; `data.work ? BigInt(data.work) : BigInt(0)` uses JavaScript
truthiness. -/
def deserialize (blake3 : Bytes → Bytes) (now : Nat)
    (data : SerializedBlockHeader) : BlockHeader :=
  BlockHeader.make blake3 data.sequence
    (hexDecodePairs data.previousBlockHash)
    data.noteCommitment
    data.transactionCommitment
    (Target.ofString data.target)
    (decParse data.randomness)
    (some data.timestamp) now
    (hexDecodePairs data.graffiti)
    data.noteSize
    (if jsTruthyStr data.work then decParse (data.work.getD []) else 0)
    none

end BlockHeaderSerde

/-- C10: For every BlockHeader h, the serde round-trip
`BlockHeaderSerde.deserialize(BlockHeaderSerde.serialize(h))` produces a
header equal to h under `BlockHeader.equals`: equal noteSize, equal work,
and byte-identical serialize() output. (`blake3` and the current time only
affect the recomputed `hash` field, which `equals` does not compare.) -/
theorem C10_blockheader_serde_roundtrip (blake3 : Bytes → Bytes) (now : Nat)
    (h : BlockHeader) :
    BlockHeader.equals (BlockHeaderSerde.deserialize blake3 now
      (BlockHeaderSerde.serialize h)) h = true := by
  have hw : jsTruthyStr (some (decRepr h.work)) = true := by
    simp [jsTruthyStr, List.isEmpty_iff, decRepr_ne_nil]
  simp [BlockHeaderSerde.deserialize, BlockHeaderSerde.serialize,
    BlockHeader.make, BlockHeader.equals, BlockHeader.serializeBytes, hw,
    hexDecodePairs_hexEncode, decParse_decRepr, Target.ofString, Target.asBigInt]

/-! ## RPC boundary: createParticipant and createSignatureShare -/

/-- An RPC error as seen by a client (`RpcRequestError`): a code string and a
code message. -/
structure RpcError where
  code : String
  codeMessage : String
deriving DecidableEq, Repr

/-- `RPC_ERROR_CODES.DUPLICATE_ACCOUNT_NAME.toString()`. -/
def RPC_ERROR_CODES_DUPLICATE_ACCOUNT_NAME : String := "duplicate-account-name"

/-- The signer key material a multisig-signer account holds
(`account.multisigKeys`). -/
structure MultisigSignerKeys where
  identity : String
  keyPackage : String
deriving DecidableEq, Repr

/-- A wallet account: a name, and optionally multisig signer key material. -/
structure Account where
  name : String
  multisigKeys : Option MultisigSignerKeys
deriving DecidableEq, Repr

/-- The wallet collaborator state visible to these routes. -/
structure Wallet where
  accounts : List Account
  defaultAccountName : Option String
deriving DecidableEq, Repr

/-- Modelled from the spec: `getAccount` (a wallet-route helper whose body is
not among the sources) resolves the explicitly named account, or the default
account when no name is given; a missing account is a fatal, locally-detected
precondition failure. -/
def getAccount (w : Wallet) (name : Option String) : Except RpcError Account :=
  match name with
  | some n =>
    match w.accounts.find? (fun a => a.name == n) with
    | some a => .ok a
    | none => .error ⟨"validation", "No account with that name"⟩
  | none =>
    match w.defaultAccountName with
    | some n =>
      match w.accounts.find? (fun a => a.name == n) with
      | some a => .ok a
      | none => .error ⟨"validation", "No default account"⟩
    | none => .error ⟨"validation", "No default account"⟩

/-- Modelled from the spec: `AssertMultisigSigner` (whose body is not among
the sources) asserts that the account is configured as a multisig signer,
i.e. holds signer key material. -/
def AssertMultisigSigner (a : Account) : Except RpcError MultisigSignerKeys :=
  match a.multisigKeys with
  | some k => .ok k
  | none => .error ⟨"assert", "Account is not a multisig signer account"⟩

/-- One entry of the `signers` array of a valid createSignatureShare
request. -/
structure SignerEntry where
  identity : String
deriving DecidableEq, Repr

/-- A createSignatureShare request that has passed schema validation. -/
structure CreateSignatureShareRequest where
  account : Option String
  signingPackage : String
  unsignedTransaction : HexStr
  signers : List SignerEntry
deriving DecidableEq, Repr

/-- Outcome of running the createSignatureShare route handler: the RPC
result, and whether the cryptographic library was invoked. -/
structure CreateSignatureShareOutcome where
  result : Except RpcError String
  cryptoCalled : Bool
deriving Repr

/-- The createSignatureShare route handler. `csLib` is the opaque
`createSignatureShare` primitive of the cryptographic library; `txHash` and
`txRandomness` are `UnsignedTransaction.hash()` and
`UnsignedTransaction.publicKeyRandomness()` on the transaction's bytes. The
handler resolves the account, asserts it is a multisig signer, parses the
hex transaction, and returns the library's value verbatim. -/
def createSignatureShareRoute
    (csLib : String → String → String → Bytes → Bytes → List String → String)
    (txHash txRandomness : Bytes → Bytes)
    (w : Wallet) (req : CreateSignatureShareRequest) :
    CreateSignatureShareOutcome :=
  match getAccount w req.account with
  | .error e => ⟨.error e, false⟩
  | .ok account =>
    match AssertMultisigSigner account with
    | .error e => ⟨.error e, false⟩
    | .ok keys =>
      let unsigned : Bytes := hexDecodePairs req.unsignedTransaction
      ⟨.ok (csLib keys.identity keys.keyPackage req.signingPackage
        (txHash unsigned) (txRandomness unsigned)
        (req.signers.map SignerEntry.identity)), true⟩

/-- A raw, not yet validated `signers` entry: `identity` may be undefined. -/
structure RawSignerEntry where
  identity : Option String
deriving DecidableEq, Repr

/-- A raw, not yet validated createSignatureShare request: every required
field may be undefined. -/
structure RawCreateSignatureShareRequest where
  account : Option String
  signingPackage : Option String
  unsignedTransaction : Option HexStr
  signers : Option (List RawSignerEntry)
deriving DecidableEq, Repr

/-- Validation of the `signers` array: every entry must have a defined
`identity` string (`yup.object(identity: yup.string().defined()).defined()`). -/
def validateSigners : List RawSignerEntry → Option (List SignerEntry)
  | [] => some []
  | ⟨some i⟩ :: rest => (validateSigners rest).map (fun tl => ⟨i⟩ :: tl)
  | ⟨none⟩ :: _ => none

/-- `CreateSignatureShareRequestSchema`: `account` optional, `signingPackage`
and `unsignedTransaction` defined strings, `signers` a defined array of
entries with defined `identity`. -/
def CreateSignatureShareRequestSchema (r : RawCreateSignatureShareRequest) :
    Option CreateSignatureShareRequest :=
  match r.signingPackage, r.unsignedTransaction, r.signers with
  | some sp, some utx, some ss =>
    match validateSigners ss with
    | some entries => some ⟨r.account, sp, utx, entries⟩
    | none => none
  | _, _, _ => none

/-- Outcome of a request to an RPC endpoint: result, whether the handler ran
at all, and whether the wallet or cryptographic library was called. -/
structure RoutedOutcome (α : Type) where
  result : Except RpcError α
  handlerCalled : Bool
  backendCalled : Bool
deriving Repr

/-- Modelled from the spec: the routing framework validates each request
against the declared schema and rejects a malformed request before invoking
the handler. Full endpoint for `wallet/multisig/createSignatureShare`. -/
def createSignatureShareEndpoint
    (csLib : String → String → String → Bytes → Bytes → List String → String)
    (txHash txRandomness : Bytes → Bytes)
    (w : Wallet) (raw : RawCreateSignatureShareRequest) :
    RoutedOutcome String :=
  match CreateSignatureShareRequestSchema raw with
  | none => ⟨.error ⟨"validation", "malformed request"⟩, false, false⟩
  | some req =>
    let o := createSignatureShareRoute csLib txHash txRandomness w req
    ⟨o.result, true, o.cryptoCalled⟩

/-- A createParticipant request that has passed schema validation. -/
structure CreateParticipantRequest where
  name : String
deriving DecidableEq, Repr

/-- A raw, not yet validated createParticipant request. -/
structure RawCreateParticipantRequest where
  name : Option String
deriving DecidableEq, Repr

/-- `CreateParticipantRequestSchema`: `name` must be a defined string. -/
def CreateParticipantRequestSchema (r : RawCreateParticipantRequest) :
    Option CreateParticipantRequest :=
  match r.name with
  | some n => some ⟨n⟩
  | none => none

/-- The createParticipant route handler: delegates to
`wallet.createMultisigSecret(name)` (passed in as `createMultisigSecret`,
which may fail, e.g. with the duplicate-account-name code) and hex-encodes
the resulting identity bytes (`identity.toString('hex')`). -/
def createParticipantRoute
    (createMultisigSecret : String → Except RpcError Bytes)
    (req : CreateParticipantRequest) : Except RpcError HexStr :=
  match createMultisigSecret req.name with
  | .ok identity => .ok (hexEncode identity)
  | .error e => .error e

/-- Modelled from the spec: schema validation runs before the handler. Full
endpoint for `wallet/multisig/createParticipant`. -/
def createParticipantEndpoint
    (createMultisigSecret : String → Except RpcError Bytes)
    (raw : RawCreateParticipantRequest) : RoutedOutcome HexStr :=
  match CreateParticipantRequestSchema raw with
  | none => ⟨.error ⟨"validation", "malformed request"⟩, false, false⟩
  | some req =>
    match createParticipantRoute createMultisigSecret req with
    | .ok identity => ⟨.ok identity, true, true⟩
    | .error e => ⟨.error e, true, true⟩

/-! ## Session lifecycle manager and the two transports -/

/-- A status message from the relay (`onSigningStatus` event payload). -/
structure StatusMessage where
  numSigners : Nat
  unsignedTransaction : HexStr
  identities : List String
  signingCommitments : List String
  signatureShares : List String
deriving DecidableEq, Repr

/-- `new UnsignedTransaction(buffer)`: the opaque transaction value, holding
its byte buffer. -/
structure UnsignedTransaction where
  bytes : Bytes
deriving DecidableEq, Repr

/-- Options accepted by `startSession` / `inputSigningConfig`: each value may
be caller-supplied or absent. -/
structure SigningConfigOptions where
  numSigners : Option Nat
  unsignedTransaction : Option HexStr
deriving DecidableEq, Repr

/-- The values the operator would type at the configuration prompts
(`ui.longPrompt` for the transaction, `ui.inputNumberPrompt` for the
participant count), used only when the corresponding option is absent. -/
structure ConfigPrompts where
  unsignedTransaction : HexStr
  numSigners : Nat
deriving DecidableEq, Repr

/-- Which configuration prompts an `inputSigningConfig` run displayed. -/
structure ConfigPromptTrace where
  promptedTransaction : Bool
  promptedNumSigners : Bool
deriving DecidableEq, Repr

/-- `inputSigningConfig`: the unsigned transaction is resolved first (option
or prompt), then the participant count (option or prompt), then
`numSigners < 2` throws `Minimum number of participants must be at least 2`. -/
def inputSigningConfig (o : SigningConfigOptions) (p : ConfigPrompts) :
    Except String (Nat × HexStr) × ConfigPromptTrace :=
  let unsignedTransaction := o.unsignedTransaction.getD p.unsignedTransaction
  let numSigners := o.numSigners.getD p.numSigners
  let trace : ConfigPromptTrace :=
    ⟨o.unsignedTransaction.isNone, o.numSigners.isNone⟩
  if numSigners < 2 then
    (.error "Minimum number of participants must be at least 2", trace)
  else
    (.ok (numSigners, unsignedTransaction), trace)

/-- Observable relay-side actions of a `startSession` run. -/
structure SessionTrace where
  joinedSession : Bool
  connected : Bool
  startedSigningSession : Bool
  promptedTransaction : Bool
  promptedNumSigners : Bool
deriving DecidableEq, Repr

/-- The first delivered message of a polling schedule (each schedule slot is
what the relay delivers during one poll-and-sleep iteration, if anything). -/
def firstSome : List (Option α) → Option α
  | [] => none
  | some a :: _ => some a
  | none :: rest => firstSome rest

namespace MultisigClientSigningSessionManager

/-- `getSessionConfig`: subscribe to `onSigningStatus`, poll
`getSigningStatus` every 3 seconds until a message arrives, clear the
subscription, and build the configuration from the first message; if the
relay never responds the loop runs forever (`none`). -/
def getSessionConfig (sched : List (Option StatusMessage)) :
    Option (Nat × UnsignedTransaction) :=
  (firstSome sched).map fun m =>
    (m.numSigners, ⟨hexDecodePairs m.unsignedTransaction⟩)

/-- `MultisigClientSigningSessionManager.startSession`. With a known session
id: `joinSession` then `getSessionConfig`, no validation of the fetched
configuration. Without one: `inputSigningConfig` (which may throw) before
`connect`, then `startSigningSession` and return the local configuration.
The result is `none` when the run would block forever, `some (.error e)` when
it throws, `some (.ok cfg)` otherwise. -/
def startSession (sessionId : Option String) (o : SigningConfigOptions)
    (p : ConfigPrompts) (sched : List (Option StatusMessage)) :
    Option (Except String (Nat × UnsignedTransaction)) × SessionTrace :=
  match sessionId with
  | some _ =>
    ((getSessionConfig sched).map .ok,
      ⟨true, false, false, false, false⟩)
  | none =>
    match inputSigningConfig o p with
    | (.error e, t) =>
      (some (.error e), ⟨false, false, false, t.promptedTransaction, t.promptedNumSigners⟩)
    | (.ok (numSigners, unsignedTransaction), t) =>
      (some (.ok (numSigners, ⟨hexDecodePairs unsignedTransaction⟩)),
        ⟨false, true, true, t.promptedTransaction, t.promptedNumSigners⟩)

end MultisigClientSigningSessionManager

/-- Result of the relayed polling loop: the returned list, the number of
`getSigningStatus` requests issued, and the sleep durations (milliseconds)
between polls. -/
structure RelayedRoundResult where
  result : List String
  polls : Nat
  sleeps : List Nat
deriving DecidableEq, Repr

/-- The relayed polling loop shared by the three round collectors: while the
current list is shorter than `numSigners`, issue a `getSigningStatus`
request, sleep 3000 ms, and (if the relay delivered a status event during
the wait) replace the current list wholesale with the reported one; `none`
if the schedule is exhausted before the loop exits. -/
def pollForList (numSigners : Nat) :
    List (Option (List String)) → List String → Option RelayedRoundResult
  | sched, current =>
    if current.length < numSigners then
      match sched with
      | [] => none
      | update :: rest =>
        (pollForList numSigners rest (update.getD current)).map fun r =>
          ⟨r.result, r.polls + 1, 3000 :: r.sleeps⟩
    else
      some ⟨current, 0, []⟩

/-- A full relayed round: submit the local contribution, subscribe, run the
polling loop starting from the one-element local list, and clear the
subscription once (and only once) the loop exits. -/
structure RelayedRound where
  submitted : String
  outcome : Option RelayedRoundResult
  subscriptionCleared : Bool
deriving DecidableEq, Repr

def relayedRound (localValue : String) (numSigners : Nat)
    (sched : List (Option (List String))) : RelayedRound :=
  let outcome := pollForList numSigners sched [localValue]
  ⟨localValue, outcome, outcome.isSome⟩

namespace MultisigClientSigningSessionManager

/-- `MultisigClientSigningSessionManager.getIdentities`:
`submitSigningIdentity`, then poll, each status message replacing the list
with `message.identities`. -/
def getIdentities (identity : String) (numSigners : Nat)
    (sched : List (Option StatusMessage)) : RelayedRound :=
  relayedRound identity numSigners
    (sched.map (Option.map StatusMessage.identities))

/-- `MultisigClientSigningSessionManager.getSigningCommitments`:
`submitSigningCommitment`, then poll on `message.signingCommitments`. -/
def getSigningCommitments (signingCommitment : String) (numSigners : Nat)
    (sched : List (Option StatusMessage)) : RelayedRound :=
  relayedRound signingCommitment numSigners
    (sched.map (Option.map StatusMessage.signingCommitments))

/-- `MultisigClientSigningSessionManager.getSignatureShares`:
`submitSignatureShare`, then poll on `message.signatureShares`. -/
def getSignatureShares (signatureShare : String) (numSigners : Nat)
    (sched : List (Option StatusMessage)) : RelayedRound :=
  relayedRound signatureShare numSigners
    (sched.map (Option.map StatusMessage.signatureShares))

end MultisigClientSigningSessionManager

/-- Modelled from the spec: `ui.collectStrings(label, count, additional)` is
not among the sources; per the spec it prompts the operator for exactly
`count` strings, one at a time, accepted as-is, and returns them after the
supplied local contribution. `inputs` is the stream of values the operator
types; if fewer than `count` are ever typed the prompt blocks forever
(`none`). -/
def collectStrings (count : Nat) (additionalStrings : List String)
    (inputs : List String) : Option (List String) :=
  if count ≤ inputs.length then
    some (additionalStrings ++ inputs.take count)
  else
    none

namespace MultisigSigningSessionManager

/-- `MultisigSigningSessionManager.startSession`: `inputSigningConfig`, then
wrap the hex transaction; no relay interaction at all. -/
def startSession (o : SigningConfigOptions) (p : ConfigPrompts) :
    Except String (Nat × UnsignedTransaction) × ConfigPromptTrace :=
  match inputSigningConfig o p with
  | (.error e, t) => (.error e, t)
  | (.ok (numSigners, unsignedTransaction), t) =>
    (.ok (numSigners, ⟨hexDecodePairs unsignedTransaction⟩), t)

/-- `MultisigSigningSessionManager.getIdentities`: echo the local identity,
then `ui.collectStrings('Participant Identity', numSigners - 1,
additionalStrings: [identity])`. -/
def getIdentities (identity : String) (numSigners : Nat)
    (inputs : List String) : Option (List String) :=
  collectStrings (numSigners - 1) [identity] inputs

/-- `MultisigSigningSessionManager.getSigningCommitments`. -/
def getSigningCommitments (signingCommitment : String) (numSigners : Nat)
    (inputs : List String) : Option (List String) :=
  collectStrings (numSigners - 1) [signingCommitment] inputs

/-- `MultisigSigningSessionManager.getSignatureShares`. -/
def getSignatureShares (signatureShare : String) (numSigners : Nat)
    (inputs : List String) : Option (List String) :=
  collectStrings (numSigners - 1) [signatureShare] inputs

end MultisigSigningSessionManager

/-- The retry loop of `MultisigIdentityCreate.start`: call
`createParticipant`; on an error whose code is
`RPC_ERROR_CODES.DUPLICATE_ACCOUNT_NAME`, prompt for a new name and retry;
re-throw any other error; `prompts` is the stream of names the operator
would type, and exhausting it means blocking at the prompt (`none`). -/
def identityCreateLoop (call : String → Except RpcError HexStr) :
    String → List String → Option (Except RpcError HexStr)
  | name, prompts =>
    match call name with
    | .ok response => some (.ok response)
    | .error e =>
      if e.code == RPC_ERROR_CODES_DUPLICATE_ACCOUNT_NAME then
        match prompts with
        | [] => none
        | newName :: rest => identityCreateLoop call newName rest
      else
        some (.error e)

/-- The RPC call the identity-create command makes:
`client.wallet.multisig.createParticipant(name)` against the endpoint. -/
def callCreateParticipant (createMultisigSecret : String → Except RpcError Bytes)
    (name : String) : Except RpcError HexStr :=
  (createParticipantEndpoint createMultisigSecret ⟨some name⟩).result

/-! ## Helper lemmas -/

theorem hexEncode_digits_lt (b : Bytes) (hb : ∀ x ∈ b, x < 256) :
    ∀ d ∈ hexEncode b, d < 16 := by
  induction b with
  | nil =>
    intro d hd
    simp [hexEncode] at hd
  | cons x xs ih =>
    intro d hd
    have hx : x < 256 := hb x (List.mem_cons_self x xs)
    rw [hexEncode] at hd
    rcases List.mem_cons.mp hd with h₁ | hd₂
    · subst h₁; omega
    rcases List.mem_cons.mp hd₂ with h₂ | hd₃
    · subst h₂; omega
    · exact ih (fun y hy => hb y (List.mem_cons_of_mem x hy)) d hd₃

theorem validateSigners_eq_none (ss : List RawSignerEntry)
    (h : ∃ entry ∈ ss, entry.identity = none) : validateSigners ss = none := by
  induction ss with
  | nil =>
    rcases h with ⟨e, he, _⟩
    simp at he
  | cons hd tl ih =>
    rcases h with ⟨e, he, hid⟩
    rcases List.mem_cons.mp he with h₁ | htl
    · rcases hd with ⟨oid⟩
      rcases oid with _ | i
      · rfl
      · subst h₁
        simp at hid
    · rcases hd with ⟨oid⟩
      rcases oid with _ | i
      · rfl
      · simp [validateSigners, ih ⟨e, htl, hid⟩]

theorem pollForList_spec (numSigners : Nat) :
    ∀ (sched : List (Option (List String))) (current : List String)
      (r : RelayedRoundResult), pollForList numSigners sched current = some r →
      numSigners ≤ r.result.length ∧ (∀ d ∈ r.sleeps, d = 3000) ∧
        r.polls = r.sleeps.length ∧
        (r.result = current ∨ r.result ∈ sched.filterMap id) := by
  intro sched
  induction sched with
  | nil =>
    intro current r hr
    simp only [pollForList] at hr
    by_cases hlt : current.length < numSigners
    · rw [if_pos hlt] at hr
      exact absurd hr (by simp)
    · rw [if_neg hlt] at hr
      injection hr with hr
      subst hr
      exact ⟨Nat.le_of_not_lt hlt, by simp, rfl, Or.inl rfl⟩
  | cons update rest ih =>
    intro current r hr
    simp only [pollForList] at hr
    by_cases hlt : current.length < numSigners
    · rw [if_pos hlt] at hr
      rcases Option.map_eq_some'.mp hr with ⟨r₂, hr₂, hr₂eq⟩
      rcases ih (update.getD current) r₂ hr₂ with ⟨hlen, hsleep, hpolls, hmem⟩
      subst hr₂eq
      refine ⟨hlen, ?_, ?_, ?_⟩
      · intro d hd
        rcases List.mem_cons.mp hd with h₁ | hd₂
        · exact h₁
        · exact hsleep d hd₂
      · show r₂.polls + 1 = (3000 :: r₂.sleeps).length
        simp [hpolls]
      · rcases update with _ | l
        · rcases hmem with h₁ | h₂
          · exact Or.inl (by simpa using h₁)
          · exact Or.inr (by simpa using h₂)
        · rcases hmem with h₁ | h₂
          · simp only [Option.getD_some] at h₁
            exact Or.inr (by simp [h₁])
          · exact Or.inr (by simp [h₂])
    · rw [if_neg hlt] at hr
      injection hr with hr
      subst hr
      exact ⟨Nat.le_of_not_lt hlt, by simp, rfl, Or.inl rfl⟩

theorem pollForList_done (numSigners : Nat) (sched : List (Option (List String)))
    (current : List String) (h : ¬ current.length < numSigners) :
    pollForList numSigners sched current = some ⟨current, 0, []⟩ := by
  cases sched with
  | nil =>
    simp only [pollForList]
    rw [if_neg h]
  | cons u r =>
    simp only [pollForList]
    rw [if_neg h]

theorem pollForList_terminates (numSigners : Nat) :
    ∀ (sched : List (Option (List String))) (current : List String)
      (i : Nat) (l : List String), sched.get? i = some (some l) →
      numSigners ≤ l.length →
      ∃ r, pollForList numSigners sched current = some r ∧ r.polls ≤ i + 1 := by
  intro sched
  induction sched with
  | nil =>
    intro current i l hget _
    simp at hget
  | cons update rest ih =>
    intro current i l hget hlen
    by_cases hlt : current.length < numSigners
    · cases i with
      | zero =>
        have hupd : update = some l := by
          simpa using hget
        subst hupd
        refine ⟨⟨l, 1, [3000]⟩, ?_, by simp⟩
        simp only [pollForList]
        rw [if_pos hlt]
        simp only [Option.getD_some]
        rw [pollForList_done numSigners rest l (Nat.not_lt.mpr hlen)]
        rfl
      | succ j =>
        have hget₂ : rest.get? j = some (some l) := by
          simpa using hget
        rcases ih (update.getD current) j l hget₂ hlen with ⟨r₂, hr₂, hp₂⟩
        refine ⟨⟨r₂.result, r₂.polls + 1, 3000 :: r₂.sleeps⟩, ?_, ?_⟩
        · simp only [pollForList]
          rw [if_pos hlt]
          rw [hr₂]
          rfl
        · show r₂.polls + 1 ≤ j + 1 + 1
          omega
    · refine ⟨⟨current, 0, []⟩, pollForList_done numSigners _ current hlt, by simp⟩

theorem collectStrings_single (count : Nat) (a : String) (inputs : List String)
    (h : count ≤ inputs.length) :
    collectStrings count [a] inputs = some (a :: inputs.take count) := by
  simp [collectStrings, h]

theorem relayedRound_props (v : String) (numSigners : Nat)
    (sched : List (Option (List String))) :
    (∀ r, (relayedRound v numSigners sched).outcome = some r →
      (∀ d ∈ r.sleeps, d = 3000) ∧ r.polls = r.sleeps.length) ∧
    (∀ i l, sched.get? i = some (some l) → numSigners ≤ l.length →
      ∃ r, (relayedRound v numSigners sched).outcome = some r ∧ r.polls ≤ i + 1) ∧
    ((relayedRound v numSigners sched).subscriptionCleared =
      (relayedRound v numSigners sched).outcome.isSome) := by
  refine ⟨?_, ?_, rfl⟩
  · intro r hr
    have h := pollForList_spec numSigners sched [v] r hr
    exact ⟨h.2.1, h.2.2.1⟩
  · intro i l hget hlen
    exact pollForList_terminates numSigners sched [v] i l hget hlen

/-! ## Claim theorems -/

/-- C1 counterexample: the claim fails in the relayed transport. With target
count 2 and local contribution "a", a relay status event reporting the list
["b", "a", "c"] makes `getIdentities` return that list verbatim: its length
is 3, not 2, and its element at position 0 is "b", not the local
contribution. -/
theorem C1_counterexample :
    (MultisigClientSigningSessionManager.getIdentities "a" 2
        [some ⟨2, [], ["b", "a", "c"], [], []⟩]).outcome =
      some ⟨["b", "a", "c"], 1, [3000]⟩ ∧
    ¬((["b", "a", "c"] : List String).length = 2 ∧
      (["b", "a", "c"] : List String).head? = some "a") :=
  ⟨rfl, by decide⟩

/-- C1 (amended): in the interactive transport, for every target count
numSigners at least 2 and enough operator inputs, each round collector
returns a list of length exactly numSigners with the local contribution at
position 0; in the relayed transport, each round collector returns a list of
length at least numSigners that is either still the one-element local list
or a relay-reported list taken verbatim (so its length may exceed the target
and the local contribution need not be at position 0). -/
theorem C1_collectors_amended :
    (∀ (idv : String) (numSigners : Nat) (inputs : List String),
      2 ≤ numSigners → numSigners - 1 ≤ inputs.length →
      ∃ out, MultisigSigningSessionManager.getIdentities idv numSigners inputs =
          some out ∧ out.length = numSigners ∧ out.head? = some idv) ∧
    (∀ (v : String) (numSigners : Nat) (inputs : List String),
      2 ≤ numSigners → numSigners - 1 ≤ inputs.length →
      ∃ out, MultisigSigningSessionManager.getSigningCommitments v numSigners inputs =
          some out ∧ out.length = numSigners ∧ out.head? = some v) ∧
    (∀ (v : String) (numSigners : Nat) (inputs : List String),
      2 ≤ numSigners → numSigners - 1 ≤ inputs.length →
      ∃ out, MultisigSigningSessionManager.getSignatureShares v numSigners inputs =
          some out ∧ out.length = numSigners ∧ out.head? = some v) ∧
    (∀ (idv : String) (numSigners : Nat) (sched : List (Option StatusMessage))
      (r : RelayedRoundResult),
      (MultisigClientSigningSessionManager.getIdentities idv numSigners sched).outcome =
        some r →
      numSigners ≤ r.result.length ∧ (r.result = [idv] ∨
        r.result ∈ sched.filterMap (fun m => Option.map StatusMessage.identities m))) ∧
    (∀ (v : String) (numSigners : Nat) (sched : List (Option StatusMessage))
      (r : RelayedRoundResult),
      (MultisigClientSigningSessionManager.getSigningCommitments v numSigners sched).outcome =
        some r →
      numSigners ≤ r.result.length ∧ (r.result = [v] ∨
        r.result ∈ sched.filterMap (fun m => Option.map StatusMessage.signingCommitments m))) ∧
    (∀ (v : String) (numSigners : Nat) (sched : List (Option StatusMessage))
      (r : RelayedRoundResult),
      (MultisigClientSigningSessionManager.getSignatureShares v numSigners sched).outcome =
        some r →
      numSigners ≤ r.result.length ∧ (r.result = [v] ∨
        r.result ∈ sched.filterMap (fun m => Option.map StatusMessage.signatureShares m))) := by
  have interactive : ∀ (v : String) (numSigners : Nat) (inputs : List String),
      2 ≤ numSigners → numSigners - 1 ≤ inputs.length →
      ∃ out, collectStrings (numSigners - 1) [v] inputs = some out ∧
        out.length = numSigners ∧ out.head? = some v := by
    intro v numSigners inputs h2 hle
    refine ⟨v :: inputs.take (numSigners - 1), collectStrings_single _ _ _ hle, ?_, rfl⟩
    simp only [List.length_cons, List.length_take, Nat.min_eq_left hle]
    omega
  have relayed : ∀ (v : String) (numSigners : Nat)
      (sched : List (Option (List String))) (r : RelayedRoundResult),
      (relayedRound v numSigners sched).outcome = some r →
      numSigners ≤ r.result.length ∧
        (r.result = [v] ∨ r.result ∈ sched.filterMap id) := by
    intro v numSigners sched r hr
    have h := pollForList_spec numSigners sched [v] r hr
    exact ⟨h.1, h.2.2.2⟩
  refine ⟨interactive, interactive, interactive, ?_, ?_, ?_⟩ <;>
    intro v numSigners sched r hr <;>
    rcases relayed v numSigners _ r hr with ⟨hlen, hmem⟩ <;>
    refine ⟨hlen, ?_⟩ <;>
    rcases hmem with h₁ | h₂
  · exact Or.inl h₁
  · exact Or.inr (by simpa [List.filterMap_map] using h₂)
  · exact Or.inl h₁
  · exact Or.inr (by simpa [List.filterMap_map] using h₂)
  · exact Or.inl h₁
  · exact Or.inr (by simpa [List.filterMap_map] using h₂)

/-- Witness for the amended C1 at concrete inputs: interactive round with
numSigners 3 and operator inputs ["id1", "id2"], and a relayed round with
numSigners 2 whose relay reports ["x", "a"]. -/
theorem C1_collectors_amended_witness :
    (∃ out, MultisigSigningSessionManager.getIdentities "id0" 3 ["id1", "id2"] =
      some out ∧ out.length = 3 ∧ out.head? = some "id0") ∧
    (∃ out, MultisigSigningSessionManager.getSigningCommitments "c0" 2 ["c1"] =
      some out ∧ out.length = 2 ∧ out.head? = some "c0") ∧
    (∃ out, MultisigSigningSessionManager.getSignatureShares "s0" 2 ["s1"] =
      some out ∧ out.length = 2 ∧ out.head? = some "s0") ∧
    (2 ≤ (["x", "a"] : List String).length ∧ ((["x", "a"] : List String) = ["a"] ∨
      (["x", "a"] : List String) ∈
        ([some ⟨2, [], ["x", "a"], [], []⟩] : List (Option StatusMessage)).filterMap
          (fun m => Option.map StatusMessage.identities m))) := by
  refine ⟨?_, ?_, ?_, ?_⟩
  · exact C1_collectors_amended.1 "id0" 3 ["id1", "id2"] (by decide) (by decide)
  · exact C1_collectors_amended.2.1 "c0" 2 ["c1"] (by decide) (by decide)
  · exact C1_collectors_amended.2.2.1 "s0" 2 ["s1"] (by decide) (by decide)
  · exact C1_collectors_amended.2.2.2.1 "a" 2 [some ⟨2, [], ["x", "a"], [], []⟩]
      ⟨["x", "a"], 1, [3000]⟩ rfl

/-- C9: In the relayed transport, for every numSigners at most 1 (as arises
when a rejoined session takes the relay-supplied configuration without
validation), each round collector submits the local contribution and then
returns immediately the one-element list containing only it: zero status
polls, zero sleeps, subscription cleared. -/
theorem C9_degenerate_numSigners (v : String) (numSigners : Nat)
    (sched : List (Option StatusMessage)) (h : numSigners ≤ 1) :
    MultisigClientSigningSessionManager.getIdentities v numSigners sched =
      ⟨v, some ⟨[v], 0, []⟩, true⟩ ∧
    MultisigClientSigningSessionManager.getSigningCommitments v numSigners sched =
      ⟨v, some ⟨[v], 0, []⟩, true⟩ ∧
    MultisigClientSigningSessionManager.getSignatureShares v numSigners sched =
      ⟨v, some ⟨[v], 0, []⟩, true⟩ := by
  have hd : ¬ ([v] : List String).length < numSigners := by
    simp only [List.length_singleton]
    omega
  refine ⟨?_, ?_, ?_⟩ <;>
    simp [MultisigClientSigningSessionManager.getIdentities,
      MultisigClientSigningSessionManager.getSigningCommitments,
      MultisigClientSigningSessionManager.getSignatureShares,
      relayedRound, pollForList_done numSigners _ _ hd]

/-- Witness for C9 at numSigners 1. -/
theorem C9_degenerate_numSigners_witness :
    MultisigClientSigningSessionManager.getIdentities "a" 1 [] =
      ⟨"a", some ⟨["a"], 0, []⟩, true⟩ ∧
    MultisigClientSigningSessionManager.getSigningCommitments "a" 1 [] =
      ⟨"a", some ⟨["a"], 0, []⟩, true⟩ ∧
    MultisigClientSigningSessionManager.getSignatureShares "a" 1 [] =
      ⟨"a", some ⟨["a"], 0, []⟩, true⟩ :=
  C9_degenerate_numSigners "a" 1 [] (by decide)

/-- C8: In the relayed transport, each polling round sleeps a fixed 3000 ms
between status requests (one sleep per poll), terminates with at most i + 1
status requests when the status event delivered in schedule slot i reports a
contribution set of size at least the target (so no further request is
issued after that event), and clears the status subscription exactly when
the collector returns. Stated for `getSigningCommitments` and
`getSignatureShares`. -/
theorem C8_relayed_polling (v : String) (numSigners : Nat)
    (sched : List (Option StatusMessage)) :
    (∀ r, (MultisigClientSigningSessionManager.getSigningCommitments v numSigners
        sched).outcome = some r →
      (∀ d ∈ r.sleeps, d = 3000) ∧ r.polls = r.sleeps.length) ∧
    (∀ i m, sched.get? i = some (some m) →
      numSigners ≤ m.signingCommitments.length →
      ∃ r, (MultisigClientSigningSessionManager.getSigningCommitments v numSigners
          sched).outcome = some r ∧ r.polls ≤ i + 1) ∧
    ((MultisigClientSigningSessionManager.getSigningCommitments v numSigners
        sched).subscriptionCleared =
      (MultisigClientSigningSessionManager.getSigningCommitments v numSigners
        sched).outcome.isSome) ∧
    (∀ r, (MultisigClientSigningSessionManager.getSignatureShares v numSigners
        sched).outcome = some r →
      (∀ d ∈ r.sleeps, d = 3000) ∧ r.polls = r.sleeps.length) ∧
    (∀ i m, sched.get? i = some (some m) →
      numSigners ≤ m.signatureShares.length →
      ∃ r, (MultisigClientSigningSessionManager.getSignatureShares v numSigners
          sched).outcome = some r ∧ r.polls ≤ i + 1) ∧
    ((MultisigClientSigningSessionManager.getSignatureShares v numSigners
        sched).subscriptionCleared =
      (MultisigClientSigningSessionManager.getSignatureShares v numSigners
        sched).outcome.isSome) := by
  have hc := relayedRound_props v numSigners
    (sched.map (Option.map StatusMessage.signingCommitments))
  have hs := relayedRound_props v numSigners
    (sched.map (Option.map StatusMessage.signatureShares))
  refine ⟨hc.1, ?_, hc.2.2, hs.1, ?_, hs.2.2⟩
  · intro i m hget hlen
    refine hc.2.1 i m.signingCommitments ?_ hlen
    rw [List.get?_map, hget]
    rfl
  · intro i m hget hlen
    refine hs.2.1 i m.signatureShares ?_ hlen
    rw [List.get?_map, hget]
    rfl

/-- Witness for C8: with numSigners 3, a single status event reporting three
commitments (respectively three shares) ends the round after one poll and
one 3000 ms sleep. -/
theorem C8_relayed_polling_witness :
    (∀ d ∈ ((⟨["c0", "c1", "c2"], 1, [3000]⟩ : RelayedRoundResult)).sleeps, d = 3000) ∧
    (∃ r, (MultisigClientSigningSessionManager.getSignatureShares "s0" 3
        [some ⟨3, [], [], [], ["s0", "s1", "s2"]⟩]).outcome = some r ∧
      r.polls ≤ 0 + 1) := by
  constructor
  · exact ((C8_relayed_polling "c0" 3 [some ⟨3, [], [], ["c0", "c1", "c2"], []⟩]).1
      ⟨["c0", "c1", "c2"], 1, [3000]⟩ rfl).1
  · exact (C8_relayed_polling "s0" 3 [some ⟨3, [], [], [], ["s0", "s1", "s2"]⟩]).2.2.2.2.1
      0 ⟨3, [], [], [], ["s0", "s1", "s2"]⟩ rfl (by decide)

/-- C2 counterexample: the claim fails for relayed rejoin with a known
session id. With session id "sid" and a relay whose fetched configuration
reports numSigners 1 (less than 2), `startSession` does not fail: it joins
the session over the network (an observable side effect) and returns the
invalid configuration as a success. -/
theorem C2_counterexample :
    MultisigClientSigningSessionManager.startSession (some "sid") ⟨none, none⟩
        ⟨[], 5⟩ [some ⟨1, [], [], [], []⟩] =
      (some (.ok (1, ⟨[]⟩)), ⟨true, false, false, false, false⟩) ∧ (1 : Nat) < 2 :=
  ⟨rfl, by decide⟩

/-- C2 (amended): whenever `startSession` resolves its configuration through
`inputSigningConfig` — i.e. in the interactive transport, and in the relayed
transport when no session id is already known — a resolved numSigners below
2 raises the configuration error and the call performs no network
connection, no relay call and no session join, so no round ever begins.
(In relayed rejoin the relay-supplied configuration is returned without this
validation.) Config-resolution prompts may occur before the check, but no
round-value prompt does. -/
theorem C2_config_validation (o : SigningConfigOptions) (p : ConfigPrompts)
    (h : o.numSigners.getD p.numSigners < 2) :
    (∀ sched, MultisigClientSigningSessionManager.startSession none o p sched =
      (some (.error "Minimum number of participants must be at least 2"),
        ⟨false, false, false, o.unsignedTransaction.isNone, o.numSigners.isNone⟩)) ∧
    MultisigSigningSessionManager.startSession o p =
      (.error "Minimum number of participants must be at least 2",
        ⟨o.unsignedTransaction.isNone, o.numSigners.isNone⟩) := by
  have hconf : inputSigningConfig o p =
      (.error "Minimum number of participants must be at least 2",
        ⟨o.unsignedTransaction.isNone, o.numSigners.isNone⟩) := by
    rw [inputSigningConfig, if_pos h]
  constructor
  · intro sched
    rw [MultisigClientSigningSessionManager.startSession, hconf]
  · rw [MultisigSigningSessionManager.startSession, hconf]

/-- Witness for the amended C2: caller-supplied numSigners 1 fails in both
transports with no network action. -/
theorem C2_config_validation_witness :
    (∀ sched, MultisigClientSigningSessionManager.startSession none
        ⟨some 1, some [1, 2]⟩ ⟨[], 9⟩ sched =
      (some (.error "Minimum number of participants must be at least 2"),
        ⟨false, false, false, false, false⟩)) ∧
    MultisigSigningSessionManager.startSession ⟨some 1, some [1, 2]⟩ ⟨[], 9⟩ =
      (.error "Minimum number of participants must be at least 2",
        ⟨false, false⟩) :=
  C2_config_validation ⟨some 1, some [1, 2]⟩ ⟨[], 9⟩ (by decide)

/-- C3: when a session id is already known, `startSession` in the relayed
transport skips local configuration negotiation entirely (the result does
not depend on the caller options or the prompt values, and no configuration
prompt is shown), joins the existing session without creating a new one
(`startedSigningSession` is false), and returns the configuration fetched
from the relay; consequently two invocations against the same relay state —
both observing the same first status message m — return identical
configurations. -/
theorem C3_rejoin_idempotent (sid : String) (o o₂ : SigningConfigOptions)
    (p p₂ : ConfigPrompts) (sched sched₂ : List (Option StatusMessage))
    (m : StatusMessage) (h : firstSome sched = some m)
    (h₂ : firstSome sched₂ = some m) :
    MultisigClientSigningSessionManager.startSession (some sid) o p sched =
      (some (.ok (m.numSigners, ⟨hexDecodePairs m.unsignedTransaction⟩)),
        ⟨true, false, false, false, false⟩) ∧
    MultisigClientSigningSessionManager.startSession (some sid) o₂ p₂ sched₂ =
      MultisigClientSigningSessionManager.startSession (some sid) o p sched := by
  have hcfg : ∀ sched₃, firstSome sched₃ = (some m : Option StatusMessage) →
      MultisigClientSigningSessionManager.startSession (some sid) o p sched₃ =
        MultisigClientSigningSessionManager.startSession (some sid) o₂ p₂ sched₃ := by
    intro sched₃ _
    rfl
  constructor
  · rw [MultisigClientSigningSessionManager.startSession,
      MultisigClientSigningSessionManager.getSessionConfig, h]
    rfl
  · rw [MultisigClientSigningSessionManager.startSession,
      MultisigClientSigningSessionManager.startSession,
      MultisigClientSigningSessionManager.getSessionConfig,
      MultisigClientSigningSessionManager.getSessionConfig, h, h₂]

/-- Witness for C3: rejoining session "sid" against a relay reporting
numSigners 2 and transaction bytes 0xAB twice yields the same
configuration, with no prompts and no new session. -/
theorem C3_rejoin_idempotent_witness :
    MultisigClientSigningSessionManager.startSession (some "sid") ⟨some 7, none⟩
        ⟨[3], 4⟩ [none, some ⟨2, [10, 11], [], [], []⟩] =
      (some (.ok (2, ⟨[171]⟩)), ⟨true, false, false, false, false⟩) ∧
    MultisigClientSigningSessionManager.startSession (some "sid") ⟨none, none⟩
        ⟨[], 0⟩ [some ⟨2, [10, 11], [], [], []⟩] =
      MultisigClientSigningSessionManager.startSession (some "sid") ⟨some 7, none⟩
        ⟨[3], 4⟩ [none, some ⟨2, [10, 11], [], [], []⟩] :=
  C3_rejoin_idempotent "sid" ⟨some 7, none⟩ ⟨none, none⟩ ⟨[3], 4⟩ ⟨[], 0⟩
    [none, some ⟨2, [10, 11], [], [], []⟩] [some ⟨2, [10, 11], [], [], []⟩]
    ⟨2, [10, 11], [], [], []⟩ rfl rfl

theorem identityCreateLoop_ok (call : String → Except RpcError HexStr)
    (name : String) (prompts : List String) (r : HexStr)
    (h : call name = .ok r) :
    identityCreateLoop call name prompts = some (.ok r) := by
  cases prompts <;> simp [identityCreateLoop, h]

theorem identityCreateLoop_error_other (call : String → Except RpcError HexStr)
    (name : String) (prompts : List String) (e : RpcError)
    (h : call name = .error e)
    (hn : (e.code == RPC_ERROR_CODES_DUPLICATE_ACCOUNT_NAME) = false) :
    identityCreateLoop call name prompts = some (.error e) := by
  cases prompts <;> simp [identityCreateLoop, h, hn]

theorem identityCreateLoop_dup (call : String → Except RpcError HexStr)
    (name newName : String) (rest : List String) (e : RpcError)
    (h : call name = .error e)
    (hd : (e.code == RPC_ERROR_CODES_DUPLICATE_ACCOUNT_NAME) = true) :
    identityCreateLoop call name (newName :: rest) =
      identityCreateLoop call newName rest := by
  simp [identityCreateLoop, h, hd]

theorem callCreateParticipant_unfold (cms : String → Except RpcError Bytes)
    (n : String) :
    callCreateParticipant cms n =
      (match cms n with
        | .ok b => .ok (hexEncode b)
        | .error err => .error err) := by
  cases h : cms n <;>
    simp [callCreateParticipant, createParticipantEndpoint,
      CreateParticipantRequestSchema, createParticipantRoute, h]

/-- C4: for every valid createSignatureShare request (resolved account exists
and is a multisig signer), the response is exactly the cryptographic
library's value applied to the account's identity and key package, the
request's signing package, the hash and public-key randomness derived from
the request's unsigned transaction, and the signer identity list in order —
all passed through unmodified and returned verbatim, with no independent
verification; and identical inputs always yield the identical signature
share. -/
theorem C4_signature_share_passthrough
    (csLib : String → String → String → Bytes → Bytes → List String → String)
    (txHash txRandomness : Bytes → Bytes) (w : Wallet)
    (req : CreateSignatureShareRequest) (account : Account)
    (keys : MultisigSignerKeys) (hacct : getAccount w req.account = .ok account)
    (hassert : AssertMultisigSigner account = .ok keys) :
    createSignatureShareRoute csLib txHash txRandomness w req =
      ⟨.ok (csLib keys.identity keys.keyPackage req.signingPackage
        (txHash (hexDecodePairs req.unsignedTransaction))
        (txRandomness (hexDecodePairs req.unsignedTransaction))
        (req.signers.map SignerEntry.identity)), true⟩ ∧
    (∀ req₂ : CreateSignatureShareRequest, req₂.account = req.account →
      req₂.signingPackage = req.signingPackage →
      req₂.unsignedTransaction = req.unsignedTransaction →
      req₂.signers = req.signers →
      createSignatureShareRoute csLib txHash txRandomness w req₂ =
        createSignatureShareRoute csLib txHash txRandomness w req) := by
  constructor
  · simp only [createSignatureShareRoute, hacct, hassert]
  · intro req₂ h₁ h₂ h₃ h₄
    have he : req₂ = req := by
      cases req₂
      cases req
      simp only [CreateSignatureShareRequest.mk.injEq]
      exact ⟨h₁, h₂, h₃, h₄⟩
    rw [he]

/-- Witness for C4: a one-account wallet with signer keys; the response is
the library value on exactly the request data. -/
theorem C4_signature_share_passthrough_witness :
    createSignatureShareRoute (fun i k sp _ _ _ => i ++ k ++ sp) (fun b => b)
        (fun b => b) ⟨[⟨"acc", some ⟨"idn", "kp"⟩⟩], some "acc"⟩
        ⟨none, "pkg", [10, 11], [⟨"idn"⟩, ⟨"peer"⟩]⟩ =
      ⟨.ok ("idn" ++ "kp" ++ "pkg"), true⟩ ∧
    (∀ req₂ : CreateSignatureShareRequest, req₂.account = none →
      req₂.signingPackage = "pkg" → req₂.unsignedTransaction = [10, 11] →
      req₂.signers = [⟨"idn"⟩, ⟨"peer"⟩] →
      createSignatureShareRoute (fun i k sp _ _ _ => i ++ k ++ sp) (fun b => b)
          (fun b => b) ⟨[⟨"acc", some ⟨"idn", "kp"⟩⟩], some "acc"⟩ req₂ =
        createSignatureShareRoute (fun i k sp _ _ _ => i ++ k ++ sp) (fun b => b)
          (fun b => b) ⟨[⟨"acc", some ⟨"idn", "kp"⟩⟩], some "acc"⟩
          ⟨none, "pkg", [10, 11], [⟨"idn"⟩, ⟨"peer"⟩]⟩) :=
  C4_signature_share_passthrough (fun i k sp _ _ _ => i ++ k ++ sp) (fun b => b)
    (fun b => b) ⟨[⟨"acc", some ⟨"idn", "kp"⟩⟩], some "acc"⟩
    ⟨none, "pkg", [10, 11], [⟨"idn"⟩, ⟨"peer"⟩]⟩ ⟨"acc", some ⟨"idn", "kp"⟩⟩
    ⟨"idn", "kp"⟩ rfl rfl

/-- C5: a createSignatureShare request whose resolved account does not exist,
or exists but is not flagged as a multisig signer, fails with the locally
detected precondition error and the cryptographic library is never invoked
(`cryptoCalled` stays false — no partial side effect). -/
theorem C5_precondition_failure
    (csLib : String → String → String → Bytes → Bytes → List String → String)
    (txHash txRandomness : Bytes → Bytes) (w : Wallet)
    (req : CreateSignatureShareRequest) (e : RpcError) :
    (getAccount w req.account = .error e →
      createSignatureShareRoute csLib txHash txRandomness w req = ⟨.error e, false⟩) ∧
    (∀ account, getAccount w req.account = .ok account →
      AssertMultisigSigner account = .error e →
      createSignatureShareRoute csLib txHash txRandomness w req = ⟨.error e, false⟩) := by
  constructor
  · intro hacct
    simp only [createSignatureShareRoute, hacct]
  · intro account hacct hassert
    simp only [createSignatureShareRoute, hacct, hassert]

/-- Witness for C5: an empty wallet makes account resolution fail; a wallet
whose account lacks multisig signer keys fails the signer assertion. In both
cases the outcome is the error with `cryptoCalled = false`. -/
theorem C5_precondition_failure_witness :
    createSignatureShareRoute (fun i _ _ _ _ _ => i) (fun b => b) (fun b => b)
        ⟨[], none⟩ ⟨none, "pkg", [], []⟩ =
      ⟨.error ⟨"validation", "No default account"⟩, false⟩ ∧
    createSignatureShareRoute (fun i _ _ _ _ _ => i) (fun b => b) (fun b => b)
        ⟨[⟨"acc", none⟩], some "acc"⟩ ⟨some "acc", "pkg", [], []⟩ =
      ⟨.error ⟨"assert", "Account is not a multisig signer account"⟩, false⟩ :=
  ⟨(C5_precondition_failure (fun i _ _ _ _ _ => i) (fun b => b) (fun b => b)
      ⟨[], none⟩ ⟨none, "pkg", [], []⟩
      ⟨"validation", "No default account"⟩).1 rfl,
    (C5_precondition_failure (fun i _ _ _ _ _ => i) (fun b => b) (fun b => b)
      ⟨[⟨"acc", none⟩], some "acc"⟩ ⟨some "acc", "pkg", [], []⟩
      ⟨"assert", "Account is not a multisig signer account"⟩).2
      ⟨"acc", none⟩ rfl rfl⟩

/-- C6: when `createParticipant` fails with the duplicate-account-name error
code, the identity-creation command retries with a freshly prompted name, so
a second call with a non-colliding name succeeds and returns a well-formed
hexadecimal identity (every digit below 16); any error with a different code
propagates unhandled. -/
theorem C6_duplicate_name_retry (cms : String → Except RpcError Bytes)
    (name newName : String) (e : RpcError) (identityBytes : Bytes) :
    (cms name = .error e → e.code = RPC_ERROR_CODES_DUPLICATE_ACCOUNT_NAME →
      cms newName = .ok identityBytes → (∀ b ∈ identityBytes, b < 256) →
      identityCreateLoop (callCreateParticipant cms) name [newName] =
        some (.ok (hexEncode identityBytes)) ∧
      ∀ d ∈ hexEncode identityBytes, d < 16) ∧
    (∀ prompts, cms name = .error e →
      e.code ≠ RPC_ERROR_CODES_DUPLICATE_ACCOUNT_NAME →
      identityCreateLoop (callCreateParticipant cms) name prompts =
        some (.error e)) := by
  constructor
  · intro herr hdup hok hbytes
    refine ⟨?_, hexEncode_digits_lt identityBytes hbytes⟩
    have h1 : callCreateParticipant cms name = .error e := by
      rw [callCreateParticipant_unfold, herr]
    have h2 : callCreateParticipant cms newName = .ok (hexEncode identityBytes) := by
      rw [callCreateParticipant_unfold, hok]
    rw [identityCreateLoop_dup _ _ _ _ _ h1 (by simp [hdup])]
    exact identityCreateLoop_ok _ _ _ _ h2
  · intro prompts herr hdup
    have h1 : callCreateParticipant cms name = .error e := by
      rw [callCreateParticipant_unfold, herr]
    exact identityCreateLoop_error_other _ _ _ _ h1 (by simp [hdup])

/-- Witness for C6: the name "taken" collides (duplicate-account-name code),
the retry with "fresh" succeeds and returns the hex digits of byte 0xAB;
the name "boom" fails with a different code and the error propagates. -/
theorem C6_duplicate_name_retry_witness :
    (identityCreateLoop (callCreateParticipant fun n =>
        if n == "taken" then .error ⟨RPC_ERROR_CODES_DUPLICATE_ACCOUNT_NAME, "dup"⟩
        else if n == "boom" then .error ⟨"other", "boom"⟩
        else .ok [171]) "taken" ["fresh"] =
      some (.ok (hexEncode [171])) ∧
      ∀ d ∈ hexEncode [171], d < 16) ∧
    identityCreateLoop (callCreateParticipant fun n =>
        if n == "taken" then .error ⟨RPC_ERROR_CODES_DUPLICATE_ACCOUNT_NAME, "dup"⟩
        else if n == "boom" then .error ⟨"other", "boom"⟩
        else .ok [171]) "boom" ["fresh"] =
      some (.error ⟨"other", "boom"⟩) := by
  constructor
  · exact (C6_duplicate_name_retry (fun n =>
      if n == "taken" then .error ⟨RPC_ERROR_CODES_DUPLICATE_ACCOUNT_NAME, "dup"⟩
      else if n == "boom" then .error ⟨"other", "boom"⟩
      else .ok [171]) "taken" "fresh"
      ⟨RPC_ERROR_CODES_DUPLICATE_ACCOUNT_NAME, "dup"⟩ [171]).1
      rfl rfl rfl (by decide)
  · exact (C6_duplicate_name_retry (fun n =>
      if n == "taken" then .error ⟨RPC_ERROR_CODES_DUPLICATE_ACCOUNT_NAME, "dup"⟩
      else if n == "boom" then .error ⟨"other", "boom"⟩
      else .ok [171]) "boom" "fresh" ⟨"other", "boom"⟩ [171]).2
      ["fresh"] rfl (by decide)

/-- C7: every request to the two RPC operations that does not match the
declared request shape — a missing name for createParticipant; a missing
signingPackage, unsignedTransaction or signers array, or a signers entry
without a defined identity string, for createSignatureShare — is rejected by
schema validation before any wallet or cryptographic call is made
(`handlerCalled` and `backendCalled` both stay false). -/
theorem C7_schema_validation :
    (∀ (cms : String → Except RpcError Bytes)
      (raw : RawCreateParticipantRequest), raw.name = none →
      createParticipantEndpoint cms raw =
        ⟨.error ⟨"validation", "malformed request"⟩, false, false⟩) ∧
    (∀ (csLib : String → String → String → Bytes → Bytes → List String → String)
      (txHash txRandomness : Bytes → Bytes) (w : Wallet)
      (raw : RawCreateSignatureShareRequest),
      (raw.signingPackage = none ∨ raw.unsignedTransaction = none ∨
        raw.signers = none ∨
        (∃ ss, raw.signers = some ss ∧ ∃ entry ∈ ss, entry.identity = none)) →
      createSignatureShareEndpoint csLib txHash txRandomness w raw =
        ⟨.error ⟨"validation", "malformed request"⟩, false, false⟩) := by
  constructor
  · intro cms raw hname
    rcases raw with ⟨oname⟩
    simp only at hname
    subst hname
    rfl
  · intro csLib txHash txRandomness w raw hbad
    rcases raw with ⟨oacc, osp, outx, osig⟩
    have hschema : CreateSignatureShareRequestSchema ⟨oacc, osp, outx, osig⟩ = none := by
      rcases hbad with hsp | hutx | hsig | ⟨ss, hss, hentry⟩
      · simp only at hsp
        subst hsp
        rcases outx with _ | u <;> rcases osig with _ | s <;> rfl
      · simp only at hutx
        subst hutx
        rcases osp with _ | v <;> rcases osig with _ | s <;> rfl
      · simp only at hsig
        subst hsig
        rcases osp with _ | v <;> rcases outx with _ | u <;> rfl
      · simp only at hss
        subst hss
        rcases osp with _ | v <;> rcases outx with _ | u
        · rfl
        · rfl
        · rfl
        · simp [CreateSignatureShareRequestSchema, validateSigners_eq_none ss hentry]
    simp only [createSignatureShareEndpoint, hschema]

/-- Witness for C7: a nameless createParticipant request and a
createSignatureShare request whose only defect is a signers entry with an
undefined identity are both rejected with no handler, wallet or
cryptographic call. -/
theorem C7_schema_validation_witness :
    createParticipantEndpoint (fun _ => .ok [1]) ⟨none⟩ =
      ⟨.error ⟨"validation", "malformed request"⟩, false, false⟩ ∧
    createSignatureShareEndpoint (fun i _ _ _ _ _ => i) (fun b => b) (fun b => b)
        ⟨[], none⟩ ⟨none, some "pkg", some [10, 11], some [⟨some "idn"⟩, ⟨none⟩]⟩ =
      ⟨.error ⟨"validation", "malformed request"⟩, false, false⟩ :=
  ⟨C7_schema_validation.1 (fun _ => .ok [1]) ⟨none⟩ rfl,
    C7_schema_validation.2 (fun i _ _ _ _ _ => i) (fun b => b) (fun b => b)
      ⟨[], none⟩ ⟨none, some "pkg", some [10, 11], some [⟨some "idn"⟩, ⟨none⟩]⟩
      (Or.inr (Or.inr (Or.inr ⟨[⟨some "idn"⟩, ⟨none⟩], rfl,
        ⟨none⟩, by simp, rfl⟩)))⟩
